import Mathlib

/-!
Shallow embedding of the flash-loan program in
`src/defiflashloan/src/lib.rs` (Anchor program `flash_loan`).

`u64` account balances and statistics counters are modelled as `Nat`
(the no-overflow side conditions on the loan path are proved separately),
and `i64` timestamps as `Int`.  The Solana runtime executes one
instruction as an all-or-nothing unit of work: an instruction that
returns an error commits nothing.  `execute_flash_loan` therefore
returns `Except`, and `run_flash_loan` is the committed semantics:
on success the new pool state, on error the original one.

The borrower-supplied cross-program invocation between draw and repay is
opaque to the program; it receives the loan vault and borrower token
accounts and may fail.  It is modelled as a function from the mid-flight
pool state to `Option (Nat × Nat)`: the new vault and borrower balances,
or `none` when the invoked program fails.
-/

namespace DefiFlashLoan

/-- `const FEE_BPS: u64 = 50` (declared in the source, unused by the fee tiers). -/
def FEE_BPS : Nat := 50

/-- `const MAX_LOAN_AMOUNT: u64 = 1_000_000`. -/
def MAX_LOAN_AMOUNT : Nat := 1000000

/-- `const LOAN_COOLDOWN: i64 = 60`. -/
def LOAN_COOLDOWN : Int := 60

/-- `const GRACE_PERIOD: i64 = 30`. -/
def GRACE_PERIOD : Int := 30

/-- `pub struct LoanStats` — aggregate statistics account. -/
structure LoanStats where
  total_loans : Nat
  total_fees_collected : Nat
  total_loan_count : Nat
  average_loan_size : Nat
deriving Repr, DecidableEq

/-- `pub struct LoanState` — reentrancy guard and cooldown tracking account. -/
structure LoanState where
  active : Bool
  last_loan_timestamp : Int
deriving Repr, DecidableEq

/-- `fn calculate_dynamic_fee(loan_amount: u64) -> u64`. -/
def calculate_dynamic_fee (loan_amount : Nat) : Nat :=
  if loan_amount > 500000 then
    (loan_amount * 25) / 10000
  else if loan_amount > 100000 then
    (loan_amount * 50) / 10000
  else
    (loan_amount * 100) / 10000

/-- `impl LoanStats { pub fn update_stats(&mut self, loan_amount: u64, fee: u64) }`. -/
def LoanStats.update_stats (s : LoanStats) (loan_amount fee : Nat) : LoanStats :=
  let total_loans := s.total_loans + loan_amount
  let total_loan_count := s.total_loan_count + 1
  { total_loans := total_loans
    total_fees_collected := s.total_fees_collected + fee
    total_loan_count := total_loan_count
    average_loan_size := total_loans / total_loan_count }

/-- The mutable accounts of one pool that a flash-loan cycle reads and writes:
the loan vault's token balance, the borrower's token balance, the `LoanStats`
account and the `LoanState` account. -/
structure PoolState where
  vault_amount : Nat
  borrower_amount : Nat
  loan_stats : LoanStats
  loan_state : LoanState
deriving Repr, DecidableEq

/-- `pub enum FlashLoanError` — the program's error taxonomy. -/
inductive FlashLoanError where
  | InsufficientFunds
  | LoanNotRepaid
  | InvalidFeeStructure
  | Reentrancy
  | LoanExpired
  | LoanAmountTooLarge
  | IncorrectRepayment
  | CooldownPeriodNotOver
deriving Repr, DecidableEq

/-- An `execute_flash_loan` call either raises one of the program's own
errors (`require!` failures) or propagates a collaborator failure via `?`
(a `token::transfer` CPI or the borrower's external `invoke`). -/
inductive CallError where
  | flash (e : FlashLoanError)
  | external
deriving Repr, DecidableEq

/-- The SPL `token::transfer` collaborator: moves `amount` between two token
balances, failing when the source balance is insufficient. -/
def transferTokens (src dst amount : Nat) : Option (Nat × Nat) :=
  if amount ≤ src then some (src - amount, dst + amount) else none

/-- The borrower-supplied external action: sees the mid-flight pool state and
returns the loan vault's and borrower account's new balances, or fails. -/
def BorrowerAction : Type := PoolState → Option (Nat × Nat)

/-- The pool state at the point of the external `invoke`: the reentrancy flag
has been set (`ctx.accounts.loan_state.active = true`) and `loan_amount` has
been moved from the vault to the borrower. -/
def midState (st : PoolState) (loan_amount : Nat) : PoolState :=
  { st with
    vault_amount := st.vault_amount - loan_amount
    borrower_amount := st.borrower_amount + loan_amount
    loan_state := { st.loan_state with active := true } }

/-- The tail of `execute_flash_loan` after the external `invoke` returns:
fee computation, the exact-repayment `require!`, the repayment transfer, the
statistics update and the final `LoanState` writes. -/
def finish_loan (st : PoolState) (loan_amount : Nat) (now : Int) :
    Option (Nat × Nat) → Except CallError PoolState
  | none => .error .external
  | some (v2, b2) =>
    let fee := calculate_dynamic_fee loan_amount
    let total_repayment := loan_amount + fee
    if b2 = total_repayment then
      match transferTokens b2 v2 total_repayment with
      | none => .error .external
      | some (b3, v3) =>
        .ok { vault_amount := v3
              borrower_amount := b3
              loan_stats := st.loan_stats.update_stats loan_amount fee
              loan_state := { active := false, last_loan_timestamp := now } }
    else .error (.flash .IncorrectRepayment)

/-- `pub fn execute_flash_loan(ctx, loan_amount: u64, loan_expiration: i64)`,
with `now` standing for `Clock::get()?.unix_timestamp` and `action` for the
borrower's external cross-program invocation. -/
def execute_flash_loan (st : PoolState) (loan_amount : Nat)
    (loan_expiration now : Int) (action : BorrowerAction) :
    Except CallError PoolState :=
  if ¬ loan_amount ≤ MAX_LOAN_AMOUNT then .error (.flash .LoanAmountTooLarge)
  else if ¬ st.vault_amount ≥ loan_amount then .error (.flash .InsufficientFunds)
  else if ¬ now ≤ loan_expiration + GRACE_PERIOD then .error (.flash .LoanExpired)
  else if ¬ now ≥ st.loan_state.last_loan_timestamp + LOAN_COOLDOWN then
    .error (.flash .CooldownPeriodNotOver)
  else if st.loan_state.active then .error (.flash .Reentrancy)
  else
    match transferTokens st.vault_amount st.borrower_amount loan_amount with
    | none => .error .external
    | some _ => finish_loan (midState st loan_amount) loan_amount now
        (action (midState st loan_amount))

/-- Committed semantics of one instruction: the Solana runtime commits the
mutated accounts only when the instruction succeeds; an erroring instruction
leaves every account exactly as before the call. -/
def run_flash_loan (st : PoolState) (loan_amount : Nat)
    (loan_expiration now : Int) (action : BorrowerAction) :
    Option CallError × PoolState :=
  match execute_flash_loan st loan_amount loan_expiration now action with
  | .ok st1 => (none, st1)
  | .error e => (some e, st)

/-- All five `require!` guards hold: the conjunction of the conditions of the
five guard checks of `execute_flash_loan`. -/
def GuardsPass (st : PoolState) (loan_amount : Nat) (loan_expiration now : Int) : Prop :=
  loan_amount ≤ MAX_LOAN_AMOUNT ∧
  st.vault_amount ≥ loan_amount ∧
  now ≤ loan_expiration + GRACE_PERIOD ∧
  now ≥ st.loan_state.last_loan_timestamp + LOAN_COOLDOWN ∧
  st.loan_state.active = false

instance (st : PoolState) (la : Nat) (le now : Int) :
    Decidable (GuardsPass st la le now) := by
  unfold GuardsPass
  infer_instance

/-- A pool with full liquidity, zeroed statistics and an idle loan state. -/
def freshPool : PoolState :=
  { vault_amount := 1000000
    borrower_amount := 0
    loan_stats := { total_loans := 0, total_fees_collected := 0
                    total_loan_count := 0, average_loan_size := 0 }
    loan_state := { active := false, last_loan_timestamp := 0 } }

/-- A borrower action that leaves the vault untouched and leaves exactly
`amt` in the borrower account. -/
def repayAction (amt : Nat) : BorrowerAction :=
  fun mid => some (mid.vault_amount, amt)

/-- A borrower action whose invoked program fails. -/
def act0 : BorrowerAction := fun _ => none

/-- When every guard holds, `execute_flash_loan` runs the borrower action on
the mid-flight state and finishes from there. -/
lemma execute_guards_pass (st : PoolState) (la : Nat) (le now : Int)
    (action : BorrowerAction) (h : GuardsPass st la le now) :
    execute_flash_loan st la le now action =
      finish_loan (midState st la) la now (action (midState st la)) := by
  obtain ⟨h1, h2, h3, h4, h5⟩ := h
  unfold execute_flash_loan
  rw [if_neg (by omega), if_neg (by omega), if_neg (by omega), if_neg (by omega)]
  rw [h5]
  simp only [Bool.false_eq_true, if_false]
  unfold transferTokens
  rw [if_pos h2]

/-- The only `FlashLoanError` that the post-invoke tail can raise is
`IncorrectRepayment`. -/
lemma finish_loan_flash_error (stm : PoolState) (la : Nat) (now : Int)
    (r : Option (Nat × Nat)) (e : FlashLoanError)
    (h : finish_loan stm la now r = .error (.flash e)) :
    e = .IncorrectRepayment := by
  unfold finish_loan at h
  cases r with
  | none => simp at h
  | some p =>
    obtain ⟨v2, b2⟩ := p
    simp only at h
    split at h
    · cases hT : transferTokens b2 v2 (la + calculate_dynamic_fee la) with
      | none => rw [hT] at h; simp at h
      | some q => rw [hT] at h; simp at h
    · simpa using h.symm

/-- Inversion of the success path: a successful call means the borrower action
returned exactly the required repayment, and the final state is the repaid
vault, an emptied borrower account, updated statistics, and a reset
`LoanState` stamped with `now`. -/
lemma execute_ok_inversion (st : PoolState) (la : Nat) (le now : Int)
    (action : BorrowerAction) (st1 : PoolState)
    (h : execute_flash_loan st la le now action = .ok st1) :
    ∃ v2, action (midState st la) = some (v2, la + calculate_dynamic_fee la) ∧
      st1 = { vault_amount := v2 + (la + calculate_dynamic_fee la)
              borrower_amount := 0
              loan_stats := st.loan_stats.update_stats la (calculate_dynamic_fee la)
              loan_state := { active := false, last_loan_timestamp := now } } := by
  unfold execute_flash_loan at h
  split at h
  · simp at h
  split at h
  · simp at h
  split at h
  · simp at h
  split at h
  · simp at h
  split at h
  · simp at h
  · revert h
    cases hT : transferTokens st.vault_amount st.borrower_amount la with
    | none => intro h; simp at h
    | some p =>
      intro h
      simp only at h
      revert h
      cases hA : action (midState st la) with
      | none => intro h; simp [finish_loan] at h
      | some q =>
        obtain ⟨v2, b2⟩ := q
        intro h
        unfold finish_loan at h
        simp only at h
        split at h
        · rename_i heq
          subst heq
          unfold transferTokens at h
          rw [if_pos (Nat.le_refl _)] at h
          simp only [Except.ok.injEq] at h
          refine ⟨v2, rfl, ?_⟩
          rw [← h]
          simp [midState]
        · simp at h

/-- C4: `calculate_dynamic_fee` is a pure total function of `loan_amount`:
above 500000 the fee is `loan_amount*25/10000`, in (100000, 500000] it is
`loan_amount*50/10000`, at or below 100000 it is `loan_amount*100/10000`,
with truncating division and boundaries falling into the lower-rate tier; in
particular fee(600000)=1500, fee(500000)=2500, fee(100000)=1000,
fee(100001)=500. -/
theorem calculate_dynamic_fee_spec (a : Nat) :
    (a > 500000 → calculate_dynamic_fee a = a * 25 / 10000) ∧
    (100000 < a ∧ a ≤ 500000 → calculate_dynamic_fee a = a * 50 / 10000) ∧
    (a ≤ 100000 → calculate_dynamic_fee a = a * 100 / 10000) ∧
    calculate_dynamic_fee 600000 = 1500 ∧
    calculate_dynamic_fee 500000 = 2500 ∧
    calculate_dynamic_fee 100000 = 1000 ∧
    calculate_dynamic_fee 100001 = 500 := by
  refine ⟨?_, ?_, ?_, by decide, by decide, by decide, by decide⟩
  · intro h
    unfold calculate_dynamic_fee
    rw [if_pos h]
  · intro ⟨h1, h2⟩
    unfold calculate_dynamic_fee
    rw [if_neg (by omega), if_pos h1]
  · intro h
    unfold calculate_dynamic_fee
    rw [if_neg (by omega), if_neg (by omega)]

theorem calculate_dynamic_fee_spec_witness :
    calculate_dynamic_fee 600000 = 600000 * 25 / 10000 :=
  (calculate_dynamic_fee_spec 600000).1 (by decide)

/-- C9: `LoanStats.update_stats` never divides by zero: the loan count is
incremented before `average_loan_size` is recomputed, so the divisor is at
least 1 for every prior `LoanStats` whose count increment does not overflow
`u64`. -/
theorem update_stats_no_div_by_zero (s : LoanStats) (a f : Nat)
    (_h : s.total_loan_count + 1 < 2 ^ 64) :
    0 < (s.update_stats a f).total_loan_count ∧
    (s.update_stats a f).total_loan_count = s.total_loan_count + 1 ∧
    (s.update_stats a f).average_loan_size =
      (s.update_stats a f).total_loans / (s.update_stats a f).total_loan_count := by
  unfold LoanStats.update_stats
  exact ⟨Nat.succ_pos _, rfl, rfl⟩

theorem update_stats_no_div_by_zero_witness :
    0 < (LoanStats.update_stats ⟨0, 0, 0, 0⟩ 5 1).total_loan_count ∧
    (LoanStats.update_stats ⟨0, 0, 0, 0⟩ 5 1).total_loan_count = 0 + 1 ∧
    (LoanStats.update_stats ⟨0, 0, 0, 0⟩ 5 1).average_loan_size =
      (LoanStats.update_stats ⟨0, 0, 0, 0⟩ 5 1).total_loans /
        (LoanStats.update_stats ⟨0, 0, 0, 0⟩ 5 1).total_loan_count :=
  update_stats_no_div_by_zero ⟨0, 0, 0, 0⟩ 5 1 (by norm_num)

/-- C10: under the ceiling `loan_amount ≤ MAX_LOAN_AMOUNT` enforced by the
first guard, none of the loan-path arithmetic overflows `u64`: each tier
product and the total repayment fit in `u64`, and the fee never exceeds the
principal. -/
theorem loan_path_no_overflow (a : Nat) (h : a ≤ MAX_LOAN_AMOUNT) :
    a * 25 < 2 ^ 64 ∧ a * 50 < 2 ^ 64 ∧ a * 100 < 2 ^ 64 ∧
    a + calculate_dynamic_fee a < 2 ^ 64 ∧
    calculate_dynamic_fee a ≤ a := by
  have hM : a ≤ 1000000 := h
  have hfee : calculate_dynamic_fee a ≤ a := by
    unfold calculate_dynamic_fee
    split
    · calc a * 25 / 10000 ≤ a * 10000 / 10000 :=
            Nat.div_le_div_right (Nat.mul_le_mul_left a (by norm_num))
        _ = a := Nat.mul_div_cancel a (by norm_num)
    split
    · calc a * 50 / 10000 ≤ a * 10000 / 10000 :=
            Nat.div_le_div_right (Nat.mul_le_mul_left a (by norm_num))
        _ = a := Nat.mul_div_cancel a (by norm_num)
    · calc a * 100 / 10000 ≤ a * 10000 / 10000 :=
            Nat.div_le_div_right (Nat.mul_le_mul_left a (by norm_num))
        _ = a := Nat.mul_div_cancel a (by norm_num)
  have h64 : (18446744073709551616 : Nat) = 2 ^ 64 := by norm_num
  refine ⟨?_, ?_, ?_, ?_, hfee⟩ <;> omega

theorem loan_path_no_overflow_witness :
    1000000 * 25 < 2 ^ 64 ∧ 1000000 * 50 < 2 ^ 64 ∧ 1000000 * 100 < 2 ^ 64 ∧
    1000000 + calculate_dynamic_fee 1000000 < 2 ^ 64 ∧
    calculate_dynamic_fee 1000000 ≤ 1000000 :=
  loan_path_no_overflow 1000000 (by decide)

/-- C1: after the external action, the borrower account's balance is read as
the offered repayment and must equal `loan_amount + fee` exactly: any
mismatch — in particular one unit short or one unit over — fails with
`IncorrectRepayment`, and exact equality lets the cycle proceed through the
repayment transfer and succeed. -/
theorem exact_repayment_law (st : PoolState) (la : Nat) (le now : Int)
    (v2 b2 : Nat) (h : GuardsPass st la le now) :
    (b2 ≠ la + calculate_dynamic_fee la →
      execute_flash_loan st la le now (fun _ => some (v2, b2)) =
        .error (.flash .IncorrectRepayment)) ∧
    (execute_flash_loan st la le now
        (fun _ => some (v2, la + calculate_dynamic_fee la + 1)) =
      .error (.flash .IncorrectRepayment)) ∧
    (0 < la + calculate_dynamic_fee la →
      execute_flash_loan st la le now
          (fun _ => some (v2, la + calculate_dynamic_fee la - 1)) =
        .error (.flash .IncorrectRepayment)) ∧
    (b2 = la + calculate_dynamic_fee la →
      ∃ st1, execute_flash_loan st la le now (fun _ => some (v2, b2)) = .ok st1) := by
  have key : ∀ c : Nat, c ≠ la + calculate_dynamic_fee la →
      execute_flash_loan st la le now (fun _ => some (v2, c)) =
        .error (.flash .IncorrectRepayment) := by
    intro c hc
    rw [execute_guards_pass st la le now _ h]
    unfold finish_loan
    simp only [if_neg hc]
  refine ⟨key b2, key _ (by omega), fun hpos => key _ (by omega), ?_⟩
  intro hb
  subst hb
  refine ⟨{ vault_amount := v2 + (la + calculate_dynamic_fee la)
            borrower_amount := 0
            loan_stats := st.loan_stats.update_stats la (calculate_dynamic_fee la)
            loan_state := { active := false, last_loan_timestamp := now } }, ?_⟩
  rw [execute_guards_pass st la le now _ h]
  simp [finish_loan, transferTokens, midState]

theorem exact_repayment_law_witness :
    execute_flash_loan freshPool 200000 100 100 (fun _ => some (800000, 201001)) =
      .error (.flash .IncorrectRepayment) :=
  (exact_repayment_law freshPool 200000 100 100 800000 201001
    (by unfold GuardsPass; decide)).1 (by decide)

/-- C2: the five guard checks are evaluated in a fixed order before any funds
move, the first failing check determines the returned error, and when all
five hold none of the five guard errors is raised. -/
theorem guard_check_order (st : PoolState) (la : Nat) (le now : Int)
    (action : BorrowerAction) :
    (¬ la ≤ MAX_LOAN_AMOUNT →
      execute_flash_loan st la le now action = .error (.flash .LoanAmountTooLarge)) ∧
    (la ≤ MAX_LOAN_AMOUNT → st.vault_amount < la →
      execute_flash_loan st la le now action = .error (.flash .InsufficientFunds)) ∧
    (la ≤ MAX_LOAN_AMOUNT → st.vault_amount ≥ la → le + GRACE_PERIOD < now →
      execute_flash_loan st la le now action = .error (.flash .LoanExpired)) ∧
    (la ≤ MAX_LOAN_AMOUNT → st.vault_amount ≥ la → now ≤ le + GRACE_PERIOD →
      now < st.loan_state.last_loan_timestamp + LOAN_COOLDOWN →
      execute_flash_loan st la le now action = .error (.flash .CooldownPeriodNotOver)) ∧
    (la ≤ MAX_LOAN_AMOUNT → st.vault_amount ≥ la → now ≤ le + GRACE_PERIOD →
      st.loan_state.last_loan_timestamp + LOAN_COOLDOWN ≤ now →
      st.loan_state.active = true →
      execute_flash_loan st la le now action = .error (.flash .Reentrancy)) ∧
    (GuardsPass st la le now →
      execute_flash_loan st la le now action ≠ .error (.flash .LoanAmountTooLarge) ∧
      execute_flash_loan st la le now action ≠ .error (.flash .InsufficientFunds) ∧
      execute_flash_loan st la le now action ≠ .error (.flash .LoanExpired) ∧
      execute_flash_loan st la le now action ≠ .error (.flash .CooldownPeriodNotOver) ∧
      execute_flash_loan st la le now action ≠ .error (.flash .Reentrancy)) := by
  refine ⟨?_, ?_, ?_, ?_, ?_, ?_⟩
  · intro h1
    unfold execute_flash_loan
    rw [if_pos h1]
  · intro h1 h2
    unfold execute_flash_loan
    rw [if_neg (by omega), if_pos (by omega)]
  · intro h1 h2 h3
    unfold execute_flash_loan
    rw [if_neg (by omega), if_neg (by omega), if_pos (by omega)]
  · intro h1 h2 h3 h4
    unfold execute_flash_loan
    rw [if_neg (by omega), if_neg (by omega), if_neg (by omega), if_pos (by omega)]
  · intro h1 h2 h3 h4 h5
    unfold execute_flash_loan
    rw [if_neg (by omega), if_neg (by omega), if_neg (by omega), if_neg (by omega), h5]
    simp
  · intro hg
    rw [execute_guards_pass st la le now action hg]
    refine ⟨?_, ?_, ?_, ?_, ?_⟩ <;>
      · intro hcontra
        cases finish_loan_flash_error _ _ _ _ _ hcontra

theorem guard_check_order_witness :
    execute_flash_loan freshPool 1000001 100 100 act0 =
      .error (.flash .LoanAmountTooLarge) :=
  (guard_check_order freshPool 1000001 100 100 act0).1 (by decide)

/-- C3: a failing call commits nothing: the post-call state equals the
pre-call state (statistics and loan state included, so `active` is not left
`true`), and repeating the call with identical inputs from that state yields
the identical error and again mutates nothing. -/
theorem failure_atomicity (st : PoolState) (la : Nat) (le now : Int)
    (action : BorrowerAction) (e : CallError) (st1 : PoolState)
    (h : run_flash_loan st la le now action = (some e, st1)) :
    st1 = st ∧
    st1.loan_stats = st.loan_stats ∧
    st1.loan_state = st.loan_state ∧
    (st.loan_state.active = false → st1.loan_state.active = false) ∧
    run_flash_loan st1 la le now action = (some e, st1) := by
  unfold run_flash_loan at h ⊢
  cases hx : execute_flash_loan st la le now action with
  | ok s => rw [hx] at h; simp at h
  | error e2 =>
    rw [hx] at h
    simp only [Prod.mk.injEq, Option.some.injEq] at h
    obtain ⟨he, hst⟩ := h
    subst hst
    subst he
    exact ⟨rfl, rfl, rfl, fun ha => ha, by rw [hx]⟩

theorem failure_atomicity_witness :
    freshPool = freshPool ∧
    freshPool.loan_stats = freshPool.loan_stats ∧
    freshPool.loan_state = freshPool.loan_state ∧
    (freshPool.loan_state.active = false → freshPool.loan_state.active = false) ∧
    run_flash_loan freshPool 1000001 100 100 act0 =
      (some (.flash .LoanAmountTooLarge), freshPool) :=
  failure_atomicity freshPool 1000001 100 100 act0
    (.flash .LoanAmountTooLarge) freshPool (by decide)

/-- A pool identical to `freshPool` except that a loan cycle is mid-flight:
`LoanState.active = true`. -/
def busyPool : PoolState :=
  { freshPool with loan_state := { active := true, last_loan_timestamp := 0 } }

/-- Inversion of a program-raised error: each `FlashLoanError` that
`execute_flash_loan` returns pins down the guard condition that failed, and
any program error past the guards is `IncorrectRepayment`. -/
lemma execute_flash_error_inversion (st : PoolState) (la : Nat) (le now : Int)
    (action : BorrowerAction) (e : FlashLoanError)
    (h : execute_flash_loan st la le now action = .error (.flash e)) :
    (e = .LoanAmountTooLarge ∧ MAX_LOAN_AMOUNT < la) ∨
    (e = .InsufficientFunds ∧ st.vault_amount < la) ∨
    (e = .LoanExpired ∧ le + GRACE_PERIOD < now) ∨
    (e = .CooldownPeriodNotOver ∧
      now < st.loan_state.last_loan_timestamp + LOAN_COOLDOWN) ∨
    (e = .Reentrancy ∧ st.loan_state.active = true) ∨
    e = .IncorrectRepayment := by
  unfold execute_flash_loan at h
  split at h
  · rename_i hc
    simp only [Except.error.injEq, CallError.flash.injEq] at h
    exact Or.inl ⟨h.symm, by omega⟩
  split at h
  · rename_i hc
    simp only [Except.error.injEq, CallError.flash.injEq] at h
    exact Or.inr (Or.inl ⟨h.symm, by omega⟩)
  split at h
  · rename_i hc
    simp only [Except.error.injEq, CallError.flash.injEq] at h
    exact Or.inr (Or.inr (Or.inl ⟨h.symm, by omega⟩))
  split at h
  · rename_i hc
    simp only [Except.error.injEq, CallError.flash.injEq] at h
    exact Or.inr (Or.inr (Or.inr (Or.inl ⟨h.symm, by omega⟩)))
  split at h
  · rename_i hc
    simp only [Except.error.injEq, CallError.flash.injEq] at h
    exact Or.inr (Or.inr (Or.inr (Or.inr (Or.inl ⟨h.symm, hc⟩))))
  · revert h
    cases hT : transferTokens st.vault_amount st.borrower_amount la with
    | none => intro h; simp at h
    | some p =>
      intro h
      simp only at h
      exact Or.inr (Or.inr (Or.inr (Or.inr (Or.inr
        (finish_loan_flash_error _ _ _ _ _ h)))))

/-- C5 counterexample: a call entered while `LoanState.active == true` need
not fail with `Reentrancy` — with `loan_amount = 1000001` the first guard
fires first and the call fails with `LoanAmountTooLarge`. -/
theorem reentrancy_guard_counterexample :
    busyPool.loan_state.active = true ∧
    execute_flash_loan busyPool 1000001 100 100 act0 =
      .error (.flash .LoanAmountTooLarge) ∧
    execute_flash_loan busyPool 1000001 100 100 act0 ≠
      .error (.flash .Reentrancy) := by
  refine ⟨rfl, rfl, ?_⟩
  intro hcontra
  rw [show execute_flash_loan busyPool 1000001 100 100 act0 =
        .error (.flash .LoanAmountTooLarge) from rfl] at hcontra
  simp at hcontra

/-- C5 (amended): the external action always runs on a state whose
`LoanState.active` is `true` and the funds have already moved; a call entered
while `active == true` fails with `Reentrancy` whenever the first four guards
pass; a call entered while `active == true` never succeeds and commits no
state change, so the in-flight cycle's eventual outcome is unaffected; and on
the success path `active` is `false` at cycle end. -/
theorem reentrancy_guard (st : PoolState) (la : Nat) (le now : Int)
    (action : BorrowerAction) :
    (midState st la).loan_state.active = true ∧
    (GuardsPass st la le now →
      execute_flash_loan st la le now action =
        finish_loan (midState st la) la now (action (midState st la))) ∧
    (la ≤ MAX_LOAN_AMOUNT → st.vault_amount ≥ la → now ≤ le + GRACE_PERIOD →
      st.loan_state.last_loan_timestamp + LOAN_COOLDOWN ≤ now →
      st.loan_state.active = true →
      execute_flash_loan st la le now action = .error (.flash .Reentrancy)) ∧
    (st.loan_state.active = true →
      (∀ st1, execute_flash_loan st la le now action ≠ .ok st1) ∧
      (run_flash_loan st la le now action).2 = st) ∧
    (∀ st1, execute_flash_loan st la le now action = .ok st1 →
      st1.loan_state.active = false) := by
  refine ⟨rfl, fun hg => execute_guards_pass st la le now action hg, ?_, ?_, ?_⟩
  · intro h1 h2 h3 h4 h5
    unfold execute_flash_loan
    rw [if_neg (by omega), if_neg (by omega), if_neg (by omega), if_neg (by omega), h5]
    simp
  · intro ha
    have herr : ∀ st1, execute_flash_loan st la le now action ≠ .ok st1 := by
      intro st1 hcontra
      unfold execute_flash_loan at hcontra
      rw [ha] at hcontra
      split at hcontra
      · simp at hcontra
      split at hcontra
      · simp at hcontra
      split at hcontra
      · simp at hcontra
      split at hcontra
      · simp at hcontra
      · simp at hcontra
    refine ⟨herr, ?_⟩
    unfold run_flash_loan
    cases hx : execute_flash_loan st la le now action with
    | ok s => exact absurd hx (herr s)
    | error e2 => rfl
  · intro st1 h
    obtain ⟨v2, _, hst⟩ := execute_ok_inversion st la le now action st1 h
    rw [hst]

theorem reentrancy_guard_witness :
    execute_flash_loan busyPool 200000 100 100 act0 =
      .error (.flash .Reentrancy) :=
  (reentrancy_guard busyPool 200000 100 100 act0).2.2.1
    (by decide) (by decide) (by decide) (by decide) rfl

/-- C6: every successful cycle updates the state exactly as specified:
`total_loans` grows by the principal, `total_fees_collected` by the fee,
`total_loan_count` by one, `average_loan_size` is recomputed from scratch,
and `LoanState` ends idle and stamped with `now`; concretely, drawing 200000
from a fresh pool at `now = 100` charges fee 1000, requires 201000 back, and
leaves count 1, average 200000, timestamp 100, `active = false`. -/
theorem success_state_update (st : PoolState) (la : Nat) (le now : Int)
    (action : BorrowerAction) (st1 : PoolState)
    (h : execute_flash_loan st la le now action = .ok st1) :
    (st1.loan_stats.total_loans = st.loan_stats.total_loans + la ∧
     st1.loan_stats.total_fees_collected =
       st.loan_stats.total_fees_collected + calculate_dynamic_fee la ∧
     st1.loan_stats.total_loan_count = st.loan_stats.total_loan_count + 1 ∧
     st1.loan_stats.average_loan_size =
       (st.loan_stats.total_loans + la) / (st.loan_stats.total_loan_count + 1) ∧
     st1.loan_state.active = false ∧
     st1.loan_state.last_loan_timestamp = now) ∧
    (calculate_dynamic_fee 200000 = 1000 ∧
     200000 + calculate_dynamic_fee 200000 = 201000 ∧
     execute_flash_loan freshPool 200000 100 100 (repayAction 201000) =
       .ok { vault_amount := 1001000
             borrower_amount := 0
             loan_stats := { total_loans := 200000, total_fees_collected := 1000
                             total_loan_count := 1, average_loan_size := 200000 }
             loan_state := { active := false, last_loan_timestamp := 100 } }) := by
  refine ⟨?_, by decide, by decide, by rfl⟩
  obtain ⟨v2, _, hst⟩ := execute_ok_inversion st la le now action st1 h
  rw [hst]
  unfold LoanStats.update_stats
  simp

theorem success_state_update_witness :
    (((execute_flash_loan freshPool 200000 100 100 (repayAction 201000) =
       .ok { vault_amount := 1001000
             borrower_amount := 0
             loan_stats := { total_loans := 200000, total_fees_collected := 1000
                             total_loan_count := 1, average_loan_size := 200000 }
             loan_state := { active := false, last_loan_timestamp := 100 } }))) :=
  (success_state_update freshPool 200000 100 100 (repayAction 201000)
    { vault_amount := 1001000
      borrower_amount := 0
      loan_stats := { total_loans := 200000, total_fees_collected := 1000
                      total_loan_count := 1, average_loan_size := 200000 }
      loan_state := { active := false, last_loan_timestamp := 100 } }
    (by rfl)).2.2.2

/-- C7: both timing guards are boundary-inclusive on the success side:
`now = loan_expiration + 30` never raises `LoanExpired` (only a strictly
later `now` does), and `now = last_loan_timestamp + 60` never raises
`CooldownPeriodNotOver` (only a strictly earlier `now` does). -/
theorem timing_boundaries (st : PoolState) (la : Nat) (le now : Int)
    (action : BorrowerAction) :
    (now = le + GRACE_PERIOD →
      execute_flash_loan st la le now action ≠ .error (.flash .LoanExpired)) ∧
    (execute_flash_loan st la le now action = .error (.flash .LoanExpired) →
      le + GRACE_PERIOD < now) ∧
    (now = st.loan_state.last_loan_timestamp + LOAN_COOLDOWN →
      execute_flash_loan st la le now action ≠
        .error (.flash .CooldownPeriodNotOver)) ∧
    (execute_flash_loan st la le now action =
        .error (.flash .CooldownPeriodNotOver) →
      now < st.loan_state.last_loan_timestamp + LOAN_COOLDOWN) := by
  have hexp : execute_flash_loan st la le now action =
      .error (.flash .LoanExpired) → le + GRACE_PERIOD < now := by
    intro h
    rcases execute_flash_error_inversion st la le now action _ h with
      ⟨he, hc⟩ | ⟨he, hc⟩ | ⟨he, hc⟩ | ⟨he, hc⟩ | ⟨he, hc⟩ | he
    · exact absurd he (by decide)
    · exact absurd he (by decide)
    · exact hc
    · exact absurd he (by decide)
    · exact absurd he (by decide)
    · exact absurd he (by decide)
  have hcool : execute_flash_loan st la le now action =
      .error (.flash .CooldownPeriodNotOver) →
      now < st.loan_state.last_loan_timestamp + LOAN_COOLDOWN := by
    intro h
    rcases execute_flash_error_inversion st la le now action _ h with
      ⟨he, hc⟩ | ⟨he, hc⟩ | ⟨he, hc⟩ | ⟨he, hc⟩ | ⟨he, hc⟩ | he
    · exact absurd he (by decide)
    · exact absurd he (by decide)
    · exact absurd he (by decide)
    · exact hc
    · exact absurd he (by decide)
    · exact absurd he (by decide)
  refine ⟨?_, hexp, ?_, hcool⟩
  · intro heq hcontra
    have := hexp hcontra
    omega
  · intro heq hcontra
    have := hcool hcontra
    omega

theorem timing_boundaries_witness :
    execute_flash_loan freshPool 200000 130 160 act0 ≠
      .error (.flash .LoanExpired) :=
  (timing_boundaries freshPool 200000 130 160 act0).1 (by decide)

/-- C8: `LoanNotRepaid` and `InvalidFeeStructure` are declared but never
returned: every `FlashLoanError` that `execute_flash_loan` raises itself is
one of the six errors actually reachable. -/
theorem raised_errors_subset (st : PoolState) (la : Nat) (le now : Int)
    (action : BorrowerAction) (e : FlashLoanError)
    (h : execute_flash_loan st la le now action = .error (.flash e)) :
    e ≠ .LoanNotRepaid ∧ e ≠ .InvalidFeeStructure ∧
    (e = .LoanAmountTooLarge ∨ e = .InsufficientFunds ∨ e = .LoanExpired ∨
     e = .CooldownPeriodNotOver ∨ e = .Reentrancy ∨ e = .IncorrectRepayment) := by
  rcases execute_flash_error_inversion st la le now action e h with
    ⟨he, _⟩ | ⟨he, _⟩ | ⟨he, _⟩ | ⟨he, _⟩ | ⟨he, _⟩ | he <;>
    subst he
  · exact ⟨by decide, by decide, Or.inl rfl⟩
  · exact ⟨by decide, by decide, Or.inr (Or.inl rfl)⟩
  · exact ⟨by decide, by decide, Or.inr (Or.inr (Or.inl rfl))⟩
  · exact ⟨by decide, by decide, Or.inr (Or.inr (Or.inr (Or.inl rfl)))⟩
  · exact ⟨by decide, by decide, Or.inr (Or.inr (Or.inr (Or.inr (Or.inl rfl))))⟩
  · exact ⟨by decide, by decide, Or.inr (Or.inr (Or.inr (Or.inr (Or.inr rfl))))⟩

theorem raised_errors_subset_witness :
    FlashLoanError.LoanAmountTooLarge ≠ FlashLoanError.LoanNotRepaid ∧
    FlashLoanError.LoanAmountTooLarge ≠ FlashLoanError.InvalidFeeStructure ∧
    (FlashLoanError.LoanAmountTooLarge = FlashLoanError.LoanAmountTooLarge ∨
     FlashLoanError.LoanAmountTooLarge = FlashLoanError.InsufficientFunds ∨
     FlashLoanError.LoanAmountTooLarge = FlashLoanError.LoanExpired ∨
     FlashLoanError.LoanAmountTooLarge = FlashLoanError.CooldownPeriodNotOver ∨
     FlashLoanError.LoanAmountTooLarge = FlashLoanError.Reentrancy ∨
     FlashLoanError.LoanAmountTooLarge = FlashLoanError.IncorrectRepayment) :=
  raised_errors_subset freshPool 1000001 100 100 act0 .LoanAmountTooLarge (by rfl)

end DefiFlashLoan
